import Mathlib

/-!
Verification of the FaceSnapr face-matching pipeline.

The definitions below are a shallow embedding of the server-side face
recognition code:

* `src/server/face-recognition.ts` — threshold constant, descriptor
  extraction wrapper, and the match engine `findMatchingPhotos`;
* `src/server/routes.ts` — the photo upload handler and the face
  recognition orchestrator.

Float32 descriptor coordinates are modelled as rationals.  The face-api
helper `euclideanDistance` computes `Math.sqrt` of the sum of squared
coordinate differences and `findMatchingPhotos` compares the result with
the threshold `0.6`; since `Real.sqrt s < t` is equivalent to `s < t ^ 2`
for a positive `t`, the executable embedding compares the squared sum
against the squared threshold, and the bridge to the real square root is
proved in `descriptorWithin_iff_sqrt`.  A thrown JavaScript exception is
modelled as the `Except.error` case.
-/

namespace FaceSnapr

/-- The match threshold from face-recognition.ts: `FACE_MATCH_THRESHOLD = 0.6`. -/
def FACE_MATCH_THRESHOLD : ℚ := 3 / 5

/-- Sum of squared coordinate differences of two descriptor vectors.  This is
the quantity face-api `euclideanDistance` takes the square root of. -/
def sumSqDiff (a b : List ℚ) : ℚ :=
  ((a.zip b).map fun p => (p.1 - p.2) * (p.1 - p.2)).sum

/-- One comparison `euclideanDistance(sourceFaceDescriptor, descriptor) <
FACE_MATCH_THRESHOLD` from `findMatchingPhotos`.  face-api
`euclideanDistance` first throws when the two arrays have different
lengths; otherwise the square-root comparison is rendered as the
equivalent squared comparison. -/
def distanceLtThreshold (a b : List ℚ) : Except String Bool :=
  if a.length = b.length then
    .ok (decide (sumSqDiff a b < FACE_MATCH_THRESHOLD * FACE_MATCH_THRESHOLD))
  else
    .error "euclideanDistance: arr.length must be equal"

/-- `descriptors.some(descriptor => euclideanDistance(...) < threshold)` from
`findMatchingPhotos`: JavaScript `Array.prototype.some` visits the
elements in order and stops at the first `true`; an exception from the
callback propagates. -/
def someDescriptorMatches (src : List ℚ) : List (List ℚ) → Except String Bool
  | [] => .ok false
  | d :: rest =>
    match distanceLtThreshold src d with
    | .error msg => .error msg
    | .ok true => .ok true
    | .ok false => someDescriptorMatches src rest

/-- One entry of the `photoDescriptors` argument of `findMatchingPhotos`:
`{ photoId: number, descriptors: Float32Array[] }`. -/
structure PhotoDescriptors where
  photoId : ℕ
  descriptors : List (List ℚ)
deriving DecidableEq

/-- The match engine `findMatchingPhotos` from face-recognition.ts: walks the
candidate list in order and pushes the photo id of every candidate for
which some stored descriptor is strictly within the threshold distance of
the query descriptor. -/
def findMatchingPhotos (sourceFaceDescriptor : List ℚ) :
    List PhotoDescriptors → Except String (List ℕ)
  | [] => .ok []
  | e :: rest =>
    match someDescriptorMatches sourceFaceDescriptor e.descriptors with
    | .error msg => .error msg
    | .ok b =>
      match findMatchingPhotos sourceFaceDescriptor rest with
      | .error msg => .error msg
      | .ok tail => .ok (if b then e.photoId :: tail else tail)

/-- Boolean form of the per-descriptor match test, defined on the squared
distance (equivalent to the square-root comparison of the source, see
`descriptorWithin_iff_sqrt`). -/
def descriptorWithin (src d : List ℚ) : Bool :=
  decide (sumSqDiff src d < FACE_MATCH_THRESHOLD * FACE_MATCH_THRESHOLD)

/-- Boolean form of the OR across the stored descriptors of one photo. -/
def anyDescriptorWithin (src : List ℚ) (ds : List (List ℚ)) : Bool :=
  ds.any (descriptorWithin src)

/-- Environment of one `extractFaceDescriptors` call.  The external
face-api effects are modelled by their outcomes: the result of
`initFaceApi()`, of `faceapi.bufferToImage(imageBuffer)`, and the
descriptor lists produced by the TinyFaceDetector pass and by the
SsdMobilenetv1 fallback pass (each pass may itself throw). -/
structure ExtractEnv where
  initFaceApi : Except String Unit
  bufferToImage : Except String Unit
  tinyDetections : Except String (List (List ℚ))
  ssdDetections : Except String (List (List ℚ))

/-- `extractFaceDescriptors` from face-recognition.ts: runs initialization,
decodes the image, detects with TinyFaceDetector, falls back to
SsdMobilenetv1 when that finds nothing, returns `null` when the final
detection list is empty, and catches every thrown error into `null`.  The
total `Option` result mirrors the function never throwing to its caller. -/
def extractFaceDescriptors (env : ExtractEnv) : Option (List (List ℚ)) :=
  match env.initFaceApi with
  | .error _ => none
  | .ok _ =>
    match env.bufferToImage with
    | .error _ => none
    | .ok _ =>
      match env.tinyDetections with
      | .error _ => none
      | .ok tiny =>
        if tiny.isEmpty then
          match env.ssdDetections with
          | .error _ => none
          | .ok ssd => if ssd.isEmpty then none else some ssd
        else some tiny

/-- A stored photo record as the recognition route sees it: the identifier
assigned by storage and the parsed content of the nullable `faceData`
column.  (The textual JSON shape of `faceData` is modelled separately by
`uploadFaceDataJson`.) -/
structure Photo where
  id : ℕ
  eventId : ℕ
  url : String
  faceData : Option (List (List ℚ))
deriving DecidableEq

/-- One row appended by `storage.createPhotoHistory`. -/
structure HistRecord where
  userId : ℕ
  photoId : ℕ
  eventId : ℕ
deriving DecidableEq

/-- The HTTP outcome of the face recognition route: status code, message,
and the three success payload fields (absent on failure responses). -/
structure RecogResult where
  status : ℕ
  message : String
  totalPhotos : Option ℕ
  matchingPhotos : Option ℕ
  photos : Option (List Photo)
deriving DecidableEq

/-- Environment of one `POST /api/events/:id/face-recognition` request:
whether `storage.getEvent` found the event, whether a selfie file was
attached, the extraction environment for the selfie, the photos returned
by `storage.getPhotosByEvent`, the authenticated user, and which
`createPhotoHistory` calls throw. -/
structure RecogRequest where
  eventExists : Bool
  selfieProvided : Bool
  selfieExtract : ExtractEnv
  photos : List Photo
  userId : ℕ
  eventId : ℕ
  historyWriteFails : ℕ → Bool

/-- The candidate list the route builds:
`photos.filter(photo => photo.faceData).map(photo => ({ photoId, descriptors }))`. -/
def photoCandidates (photos : List Photo) : List PhotoDescriptors :=
  (photos.filter fun p => p.faceData.isSome).map fun p =>
    { photoId := p.id, descriptors := p.faceData.getD [] }

/-- The history record the route inserts for one matched photo. -/
def mkHistRecord (userId eventId : ℕ) (p : Photo) : HistRecord :=
  { userId := userId, photoId := p.id, eventId := eventId }

/-- The awaited `for` loop over the matched photos: each iteration inserts
one history row; a throwing insert aborts the loop (the records inserted
so far stay, the remaining photos are skipped) and the `Bool` component
records whether the loop ran to completion. -/
def writeHistoryLoop (userId eventId : ℕ) (fails : ℕ → Bool) :
    List Photo → List HistRecord × Bool
  | [] => ([], true)
  | p :: rest =>
    if fails p.id then ([], false)
    else
      let r := writeHistoryLoop userId eventId fails rest
      (mkHistRecord userId eventId p :: r.1, r.2)

/-- The `POST /api/events/:id/face-recognition` handler from routes.ts,
returning the HTTP outcome together with the history rows actually
inserted.  A thrown error anywhere inside the outer `try` (a length
mismatch inside `findMatchingPhotos`, or a failing history insert) lands
in the catch branch, which answers 500 `Face recognition failed`. -/
def faceRecognitionHandler (req : RecogRequest) : RecogResult × List HistRecord :=
  if req.eventExists = false then
    ({ status := 404, message := "Event not found",
       totalPhotos := none, matchingPhotos := none, photos := none }, [])
  else if req.selfieProvided = false then
    ({ status := 400, message := "No selfie uploaded",
       totalPhotos := none, matchingPhotos := none, photos := none }, [])
  else
    match extractFaceDescriptors req.selfieExtract with
    | none =>
      ({ status := 400, message := "No face detected in the selfie",
         totalPhotos := none, matchingPhotos := none, photos := none }, [])
    | some [] =>
      ({ status := 400, message := "No face detected in the selfie",
         totalPhotos := none, matchingPhotos := none, photos := none }, [])
    | some (q :: _) =>
      match findMatchingPhotos q (photoCandidates req.photos) with
      | .error _ =>
        ({ status := 500, message := "Face recognition failed",
           totalPhotos := none, matchingPhotos := none, photos := none }, [])
      | .ok matchingPhotoIds =>
        let matchingPhotos := req.photos.filter fun p => matchingPhotoIds.contains p.id
        let hist :=
          if matchingPhotos.isEmpty then ([], true)
          else writeHistoryLoop req.userId req.eventId req.historyWriteFails matchingPhotos
        if hist.2 then
          ({ status := 200, message := "Face recognition completed",
             totalPhotos := some req.photos.length,
             matchingPhotos := some matchingPhotos.length,
             photos := some matchingPhotos }, hist.1)
        else
          ({ status := 500, message := "Face recognition failed",
             totalPhotos := none, matchingPhotos := none, photos := none }, hist.1)

/-- The photos of the request that actually match the query descriptor:
those with a non-null descriptor list one of whose descriptors is strictly
within threshold distance. -/
def matchedPhotos (q : List ℚ) (photos : List Photo) : List Photo :=
  photos.filter fun p => p.faceData.isSome && anyDescriptorWithin q (p.faceData.getD [])

/-- Environment of one `POST /api/events/:id/photos` upload request:
whether the event exists, whether a file was attached, whether
`fs.readFileSync` on the uploaded file succeeds, and the extraction
environment for the image. -/
structure UploadRequest where
  eventExists : Bool
  fileProvided : Bool
  readFileOk : Bool
  extractEnv : ExtractEnv

/-- The HTTP outcome of the upload route: status code plus, when a photo
record was created, the descriptor list stored in its `faceData` column
(`none` in the outer `Option` means no record was created). -/
structure UploadResult where
  status : ℕ
  createdFaceData : Option (Option (List (List ℚ)))
deriving DecidableEq

/-- The photo upload handler from routes.ts: `faceData` starts as `null`;
reading the file and extracting descriptors happen inside a `try` whose
catch merely logs, so a read failure or a `null` extraction leaves
`faceData` null; the photo is then created unconditionally and the route
answers 201. -/
def uploadPhotoHandler (req : UploadRequest) : UploadResult :=
  if req.eventExists = false then { status := 404, createdFaceData := none }
  else if req.fileProvided = false then { status := 400, createdFaceData := none }
  else
    let faceData :=
      if req.readFileOk then extractFaceDescriptors req.extractEnv else none
    { status := 201, createdFaceData := some faceData }

/-- JSON value model: the fragment needed for the `faceData` column. -/
inductive JVal where
  | num (q : ℚ)
  | arr (elems : List JVal)
  | obj (fields : List (String × JVal))

/-- `JSON.stringify` applied to one `Float32Array`: a typed array has no
`toJSON` method and is serialized like a plain object, i.e. as the object
of its index properties "0", "1", ... — not as a JSON array. -/
def jsonStringifyFloat32Array (d : List ℚ) : JVal :=
  .obj (d.enum.map fun p => (toString p.1, .num p.2))

/-- The value `JSON.stringify(descriptors)` writes into `faceData` at
upload time (routes.ts), with `descriptors : Float32Array[]` as returned
by `extractFaceDescriptors`: a JSON array of the index-keyed objects
above.  `JSON.parse` at recognition time returns this same value. -/
def uploadFaceDataJson (ds : List (List ℚ)) : JVal :=
  .arr (ds.map jsonStringifyFloat32Array)

/-- Modelled from the spec: the serialization section 4.2 describes the
stored shape as a JSON array of float arrays that must round-trip into
the list-of-fixed-length-float-vectors shape the match engine consumes. -/
def specFaceDataJson (ds : List (List ℚ)) : JVal :=
  .arr (ds.map fun d => .arr (d.map .num))

/-- The JavaScript `.length` property of a parsed JSON value: a number only
on arrays; an object parsed from an index-keyed serialization has no
length property (it is `undefined`). -/
def jsLengthProp : JVal → Option ℕ
  | .arr l => some l.length
  | _ => none

/-- The guard `arr1.length !== arr2.length` at the top of face-api
`euclideanDistance`, applied to the Float32Array query (of length `n`)
and one parsed `faceData` element at recognition time: a target whose
length property is not the number `n` makes the call throw. -/
def euclideanDistanceGuard (n : ℕ) (target : JVal) : Except String Unit :=
  if jsLengthProp target = some n then .ok ()
  else .error "euclideanDistance: arr.length must be equal"

/-- The module-level initialization state of face-recognition.ts: the
`modelsLoaded` boolean, paired with a count of the model load sequences
started so far (instrumentation for reasoning about redundant loads). -/
structure InitApiState where
  modelsLoaded : Bool
  loadsStarted : ℕ
deriving DecidableEq

/-- The synchronous prefix of `initFaceApi()`: it reads `modelsLoaded` and
returns at once when the flag is already true; otherwise it begins a model
load sequence.  The flag is only assigned after the awaited loads finish,
so it is still false while a load is in flight.  The `Bool` result records
whether this call started a load. -/
def initFaceApiEnter (s : InitApiState) : InitApiState × Bool :=
  if s.modelsLoaded then (s, false)
  else ({ modelsLoaded := s.modelsLoaded, loadsStarted := s.loadsStarted + 1 }, true)

/-- Completion of a successful load sequence: sets `modelsLoaded`. -/
def initFaceApiComplete (s : InitApiState) : InitApiState :=
  { modelsLoaded := true, loadsStarted := s.loadsStarted }

/-- Example query descriptor for the concrete instantiations below. -/
def exQuery : List ℚ := [0, 0]

/-- Example candidate list: photo 2 matches only through its second stored
descriptor. -/
def exCands : List PhotoDescriptors :=
  [{ photoId := 1, descriptors := [[1, 1]] },
   { photoId := 2, descriptors := [[1, 1], [0, 0]] }]

/-- Extraction environment of an image in which both detector passes find
zero faces. -/
def exZeroFaceEnv : ExtractEnv :=
  { initFaceApi := .ok (), bufferToImage := .ok (),
    tinyDetections := .ok [], ssdDetections := .ok [] }

/-- Extraction environment of a selfie with one detected face. -/
def exSelfieEnv : ExtractEnv :=
  { initFaceApi := .ok (), bufferToImage := .ok (),
    tinyDetections := .ok [[0, 0]], ssdDetections := .ok [] }

/-- Extraction environment in which model initialization fails. -/
def exInitFailEnv : ExtractEnv :=
  { initFaceApi := .error "Failed to load face recognition models",
    bufferToImage := .ok (),
    tinyDetections := .ok [[0, 0]], ssdDetections := .ok [] }

/-- Extraction environment in which decoding the image bytes fails. -/
def exDecodeFailEnv : ExtractEnv :=
  { initFaceApi := .ok (), bufferToImage := .error "unsupported image type",
    tinyDetections := .ok [[0, 0]], ssdDetections := .ok [] }

/-- Five stored event photos: photos 1 and 4 match `exQuery`, photo 2 is
far away, photo 3 has a null descriptor list, photo 5 has an empty one. -/
def exPhotos : List Photo :=
  [{ id := 1, eventId := 42, url := "/uploads/a.jpg", faceData := some [[0, 0]] },
   { id := 2, eventId := 42, url := "/uploads/b.jpg", faceData := some [[1, 1]] },
   { id := 3, eventId := 42, url := "/uploads/c.jpg", faceData := none },
   { id := 4, eventId := 42, url := "/uploads/d.jpg", faceData := some [[0, 1/100]] },
   { id := 5, eventId := 42, url := "/uploads/e.jpg", faceData := some [] }]

/-- A recognition request whose selfie matches 2 of the 5 event photos and
whose history inserts all succeed. -/
def exRecogRequest : RecogRequest :=
  { eventExists := true, selfieProvided := true, selfieExtract := exSelfieEnv,
    photos := exPhotos, userId := 7, eventId := 42,
    historyWriteFails := fun _ => false }

/-- The same request, but the history insert for photo 1 (the first matched
photo) throws. -/
def exRecogRequestHistFail : RecogRequest :=
  { exRecogRequest with historyWriteFails := fun i => i == 1 }

/-- The same request with a zero-face selfie. -/
def exNoFaceRequest : RecogRequest :=
  { exRecogRequest with selfieExtract := exZeroFaceEnv }

/-- The same request with a selfie whose model initialization fails. -/
def exInitFailRequest : RecogRequest :=
  { exRecogRequest with selfieExtract := exInitFailEnv }

/-- An upload request whose image contains no detectable face. -/
def exUploadRequest : UploadRequest :=
  { eventExists := true, fileProvided := true, readFileOk := true,
    extractEnv := exZeroFaceEnv }

/-- An upload request whose descriptor extraction fails at model load. -/
def exInitFailUpload : UploadRequest :=
  { eventExists := true, fileProvided := true, readFileOk := true,
    extractEnv := exInitFailEnv }

end FaceSnapr

namespace FaceSnapr

/-- The squared comparison used by the executable embedding agrees with the
square-root comparison written in the source. -/
theorem descriptorWithin_iff_sqrt (src d : List ℚ) :
    descriptorWithin src d = true ↔
      Real.sqrt ((sumSqDiff src d : ℚ) : ℝ) < ((FACE_MATCH_THRESHOLD : ℚ) : ℝ) := by
  rw [descriptorWithin, decide_eq_true_eq]
  have hpos : (0 : ℝ) < ((FACE_MATCH_THRESHOLD : ℚ) : ℝ) := by
    norm_num [FACE_MATCH_THRESHOLD]
  rw [Real.sqrt_lt' hpos, pow_two]
  constructor
  · intro h
    exact_mod_cast h
  · intro h
    exact_mod_cast h

/-- Under dimension agreement the descriptor-level `some` never throws and
computes the boolean OR of the per-descriptor tests. -/
theorem someDescriptorMatches_eq_any (src : List ℚ) (ds : List (List ℚ))
    (h : ∀ d ∈ ds, d.length = src.length) :
    someDescriptorMatches src ds = .ok (anyDescriptorWithin src ds) := by
  induction ds with
  | nil => rfl
  | cons d rest ih =>
    have hd : d.length = src.length := h d (List.mem_cons_self d rest)
    have hr := ih fun d' hd' => h d' (List.mem_cons_of_mem d hd')
    have hdist : distanceLtThreshold src d = .ok (descriptorWithin src d) := by
      rw [distanceLtThreshold, if_pos hd.symm, descriptorWithin]
    rw [someDescriptorMatches, hdist]
    cases hw : descriptorWithin src d with
    | true => simp [anyDescriptorWithin, List.any_cons, hw]
    | false => simp [anyDescriptorWithin, List.any_cons, hw, hr]

/-- Under dimension agreement `findMatchingPhotos` never throws and returns
the photo ids of the matching candidates, in input order. -/
theorem findMatchingPhotos_eq_filter (src : List ℚ) (cands : List PhotoDescriptors)
    (h : ∀ e ∈ cands, ∀ d ∈ e.descriptors, d.length = src.length) :
    findMatchingPhotos src cands =
      .ok ((cands.filter fun e => anyDescriptorWithin src e.descriptors).map
        (·.photoId)) := by
  induction cands with
  | nil => rfl
  | cons e rest ih =>
    have he := someDescriptorMatches_eq_any src e.descriptors
      (h e (List.mem_cons_self e rest))
    have hr := ih fun e' he' => h e' (List.mem_cons_of_mem e he')
    rw [findMatchingPhotos, he, hr]
    cases hb : anyDescriptorWithin src e.descriptors with
    | true => simp [List.filter_cons, hb]
    | false => simp [List.filter_cons, hb]

/-- The history loop keeps exactly the records inserted before the first
failing insert, and reports whether every insert succeeded. -/
theorem writeHistoryLoop_eq (userId eventId : ℕ) (fails : ℕ → Bool) (l : List Photo) :
    writeHistoryLoop userId eventId fails l =
      ((l.takeWhile fun p => !fails p.id).map (mkHistRecord userId eventId),
       l.all fun p => !fails p.id) := by
  induction l with
  | nil => rfl
  | cons p rest ih =>
    rw [writeHistoryLoop]
    cases hf : fails p.id with
    | true => simp [List.takeWhile_cons, List.all_cons, hf]
    | false => simp [List.takeWhile_cons, List.all_cons, hf, ih]

/-- When no insert fails, the history loop inserts one record per photo,
in order, and completes. -/
theorem writeHistoryLoop_no_failures (userId eventId : ℕ) (fails : ℕ → Bool)
    (l : List Photo) (h : ∀ p ∈ l, fails p.id = false) :
    writeHistoryLoop userId eventId fails l =
      (l.map (mkHistRecord userId eventId), true) := by
  induction l with
  | nil => rfl
  | cons p rest ih =>
    have hp := h p (List.mem_cons_self p rest)
    rw [writeHistoryLoop, if_neg (by simp [hp])]
    rw [ih fun p' hp' => h p' (List.mem_cons_of_mem p hp')]
    rfl

/-- With pairwise distinct photo ids, filtering the photos of the event by
membership of their id in the match-engine output recovers exactly the
matching photos. -/
theorem filter_contains_eq_matchedPhotos (q : List ℚ) (photos : List Photo)
    (hnodup : (photos.map (·.id)).Nodup) :
    (photos.filter fun p =>
        (((photoCandidates photos).filter fun e =>
          anyDescriptorWithin q e.descriptors).map (·.photoId)).contains p.id) =
      matchedPhotos q photos := by
  rw [matchedPhotos]
  apply List.filter_congr
  intro p hp
  have hinj : ∀ a ∈ photos, ∀ b ∈ photos, a.id = b.id → a = b := by
    intro a ha b hb hab
    exact List.inj_on_of_nodup_map hnodup ha hb hab
  rw [Bool.eq_iff_iff]
  constructor
  · intro hc
    have hmem : p.id ∈ ((photoCandidates photos).filter fun e =>
        anyDescriptorWithin q e.descriptors).map (·.photoId) := by
      simpa using hc
    obtain ⟨e, hef, hepid⟩ := List.mem_map.1 hmem
    obtain ⟨hec, hany⟩ := List.mem_filter.1 hef
    rw [photoCandidates] at hec
    obtain ⟨p', hp'f, hpe⟩ := List.mem_map.1 hec
    obtain ⟨hp'mem, hp'some⟩ := List.mem_filter.1 hp'f
    have hid : p' = p := by
      apply hinj p' hp'mem p hp
      rw [← hepid, ← hpe]
    subst hid
    rw [← hpe] at hany
    simp only [Bool.and_eq_true]
    exact ⟨hp'some, hany⟩
  · intro hmatch
    simp only [Bool.and_eq_true] at hmatch
    obtain ⟨hsome, hany⟩ := hmatch
    have hcand : (⟨p.id, p.faceData.getD []⟩ : PhotoDescriptors) ∈ photoCandidates photos := by
      rw [photoCandidates]
      exact List.mem_map.2 ⟨p, List.mem_filter.2 ⟨hp, hsome⟩, rfl⟩
    have hmem : p.id ∈ ((photoCandidates photos).filter fun e =>
        anyDescriptorWithin q e.descriptors).map (·.photoId) :=
      List.mem_map.2 ⟨_, List.mem_filter.2 ⟨hcand, hany⟩, rfl⟩
    simpa using hmem

/-- C1: for every query descriptor and candidate list of matching
dimensions, `findMatchingPhotos` includes a candidate photo id in its
result if and only if at least one stored descriptor of a candidate
carrying that id is at Euclidean distance strictly below the 0.6
threshold from the query descriptor — OR semantics across the descriptors
of one photo, with distance exactly at or above the threshold never
matching by itself. -/
theorem C1_findMatchingPhotos_match_iff (src : List ℚ) (cands : List PhotoDescriptors)
    (pid : ℕ) (hdim : ∀ e ∈ cands, ∀ d ∈ e.descriptors, d.length = src.length) :
    ∃ result, findMatchingPhotos src cands = .ok result ∧
      (pid ∈ result ↔ ∃ e ∈ cands, e.photoId = pid ∧ ∃ d ∈ e.descriptors,
        Real.sqrt ((sumSqDiff src d : ℚ) : ℝ) < ((FACE_MATCH_THRESHOLD : ℚ) : ℝ)) := by
  refine ⟨_, findMatchingPhotos_eq_filter src cands hdim, ?_⟩
  simp only [List.mem_map, List.mem_filter]
  constructor
  · rintro ⟨e, ⟨he, hany⟩, rfl⟩
    rw [anyDescriptorWithin, List.any_eq_true] at hany
    obtain ⟨d, hd, hw⟩ := hany
    exact ⟨e, he, rfl, d, hd, (descriptorWithin_iff_sqrt src d).1 hw⟩
  · rintro ⟨e, he, rfl, d, hd, hsq⟩
    refine ⟨e, ⟨he, ?_⟩, rfl⟩
    rw [anyDescriptorWithin, List.any_eq_true]
    exact ⟨d, hd, (descriptorWithin_iff_sqrt src d).2 hsq⟩

/-- Concrete instantiation of C1: photo 2 of `exCands` is matched through
its second stored descriptor. -/
theorem C1_witness :
    (∀ e ∈ exCands, ∀ d ∈ e.descriptors, d.length = exQuery.length) ∧
    ∃ result, findMatchingPhotos exQuery exCands = .ok result ∧
      (2 ∈ result ↔ ∃ e ∈ exCands, e.photoId = 2 ∧ ∃ d ∈ e.descriptors,
        Real.sqrt ((sumSqDiff exQuery d : ℚ) : ℝ) < ((FACE_MATCH_THRESHOLD : ℚ) : ℝ)) :=
  ⟨by decide, C1_findMatchingPhotos_match_iff exQuery exCands 2 (by decide)⟩

/-- C2: on dimension-consistent inputs `findMatchingPhotos` is
deterministic — it evaluates to a unique result list — and that list is
the filter of the candidate list in input order, mapped to photo ids, so
the output ids form a subsequence of the input candidate ids and are
never re-sorted by distance. -/
theorem C2_findMatchingPhotos_deterministic_order (src : List ℚ)
    (cands : List PhotoDescriptors)
    (hdim : ∀ e ∈ cands, ∀ d ∈ e.descriptors, d.length = src.length) :
    ∃ result, findMatchingPhotos src cands = .ok result ∧
      (∀ other, findMatchingPhotos src cands = .ok other → other = result) ∧
      result = ((cands.filter fun e => anyDescriptorWithin src e.descriptors).map
        (·.photoId)) ∧
      result.Sublist (cands.map (·.photoId)) := by
  have hrun := findMatchingPhotos_eq_filter src cands hdim
  refine ⟨_, hrun, ?_, rfl, ?_⟩
  · intro other hother
    rw [hrun] at hother
    exact (Except.ok.inj hother).symm
  · exact (List.filter_sublist cands).map (·.photoId)

/-- The guard `matchingPhotos.length > 0` in front of the history loop is
redundant: the loop on an empty list already inserts nothing and
completes. -/
theorem historyStep_eq_loop (u e : ℕ) (f : ℕ → Bool) (l : List Photo) :
    (if l.isEmpty then (([] : List HistRecord), true)
     else writeHistoryLoop u e f l) = writeHistoryLoop u e f l := by
  cases l with
  | nil => rfl
  | cons p rest => rfl

/-- Dimension agreement of the stored descriptors transfers to the
candidate list the route builds. -/
theorem photoCandidates_dim (q : List ℚ) (photos : List Photo)
    (hdim : ∀ p ∈ photos, ∀ d ∈ p.faceData.getD [], d.length = q.length) :
    ∀ e ∈ photoCandidates photos, ∀ d ∈ e.descriptors, d.length = q.length := by
  intro e he d hd
  rw [photoCandidates] at he
  obtain ⟨p, hpf, rfl⟩ := List.mem_map.1 he
  exact hdim p (List.mem_of_mem_filter hpf) d hd

/-- Concrete instantiation of C2. -/
theorem C2_witness :
    (∀ e ∈ exCands, ∀ d ∈ e.descriptors, d.length = exQuery.length) ∧
    ∃ result, findMatchingPhotos exQuery exCands = .ok result ∧
      (∀ other, findMatchingPhotos exQuery exCands = .ok other → other = result) ∧
      result = ((exCands.filter fun e => anyDescriptorWithin exQuery e.descriptors).map
        (·.photoId)) ∧
      result.Sublist (exCands.map (·.photoId)) :=
  ⟨by decide, C2_findMatchingPhotos_deterministic_order exQuery exCands (by decide)⟩

/-- Generic run of the recognition handler on a request that reaches the
history stage with every insert succeeding. -/
theorem handler_completed_run (req : RecogRequest) (q : List ℚ)
    (ds : List (List ℚ))
    (hev : req.eventExists = true) (hfile : req.selfieProvided = true)
    (hex : extractFaceDescriptors req.selfieExtract = some (q :: ds))
    (hnodup : (req.photos.map (·.id)).Nodup)
    (hdim : ∀ p ∈ req.photos, ∀ d ∈ p.faceData.getD [], d.length = q.length)
    (hhist : ∀ p ∈ matchedPhotos q req.photos, req.historyWriteFails p.id = false) :
    faceRecognitionHandler req =
      ({ status := 200, message := "Face recognition completed",
         totalPhotos := some req.photos.length,
         matchingPhotos := some (matchedPhotos q req.photos).length,
         photos := some (matchedPhotos q req.photos) },
       (matchedPhotos q req.photos).map (mkHistRecord req.userId req.eventId)) := by
  have hrun := findMatchingPhotos_eq_filter q (photoCandidates req.photos)
    (photoCandidates_dim q req.photos hdim)
  have hfilter := filter_contains_eq_matchedPhotos q req.photos hnodup
  have hloop := writeHistoryLoop_no_failures req.userId req.eventId
    req.historyWriteFails (matchedPhotos q req.photos) hhist
  simp only [faceRecognitionHandler, hev, hfile, hex, hrun, hfilter,
    historyStep_eq_loop, hloop]
  by_cases hm : matchedPhotos q req.photos = []
  · simp [hm]
  · simp [hm]

/-- Generic run of the recognition handler on a request that reaches the
history stage and hits a failing insert: the records after the first
failure are skipped and the route answers 500. -/
theorem handler_history_fail_run (req : RecogRequest) (q : List ℚ)
    (ds : List (List ℚ))
    (hev : req.eventExists = true) (hfile : req.selfieProvided = true)
    (hex : extractFaceDescriptors req.selfieExtract = some (q :: ds))
    (hnodup : (req.photos.map (·.id)).Nodup)
    (hdim : ∀ p ∈ req.photos, ∀ d ∈ p.faceData.getD [], d.length = q.length)
    (hfail : ∃ p ∈ matchedPhotos q req.photos, req.historyWriteFails p.id = true) :
    faceRecognitionHandler req =
      ({ status := 500, message := "Face recognition failed",
         totalPhotos := none, matchingPhotos := none, photos := none },
       ((matchedPhotos q req.photos).takeWhile fun p =>
         !req.historyWriteFails p.id).map (mkHistRecord req.userId req.eventId)) := by
  have hrun := findMatchingPhotos_eq_filter q (photoCandidates req.photos)
    (photoCandidates_dim q req.photos hdim)
  have hfilter := filter_contains_eq_matchedPhotos q req.photos hnodup
  have hall : ((matchedPhotos q req.photos).all fun p =>
      !req.historyWriteFails p.id) = false := by
    obtain ⟨p, hp, hf⟩ := hfail
    cases hb : (matchedPhotos q req.photos).all fun p => !req.historyWriteFails p.id with
    | false => rfl
    | true =>
      have := List.all_eq_true.1 hb p hp
      rw [hf] at this
      simp at this
  have hm : matchedPhotos q req.photos ≠ [] := by
    obtain ⟨p0, hp0, _⟩ := hfail
    exact List.ne_nil_of_mem hp0
  simp only [faceRecognitionHandler, hev, hfile, hex, hrun, hfilter,
    historyStep_eq_loop, writeHistoryLoop_eq, hall]
  simp [hm]

/-- The matched photos of the running example: photos 1 and 4. -/
theorem exMatchedPhotos_eq :
    matchedPhotos exQuery exPhotos =
      [{ id := 1, eventId := 42, url := "/uploads/a.jpg", faceData := some [[0, 0]] },
       { id := 4, eventId := 42, url := "/uploads/d.jpg",
         faceData := some [[0, 1/100]] }] := by
  rw [matchedPhotos, exPhotos, exQuery]
  norm_num [anyDescriptorWithin, descriptorWithin, sumSqDiff, FACE_MATCH_THRESHOLD,
    List.filter_cons, List.any_cons]

/-- C3: a face recognition request that runs to completion answers with
the count of all photos stored for the event (photos with a null
descriptor list included), the count of matched photos, the matched photo
records themselves, and inserts exactly one history record for the
requesting user per matched photo. -/
theorem C3_completed_response_and_history (req : RecogRequest) (q : List ℚ)
    (ds : List (List ℚ))
    (hev : req.eventExists = true) (hfile : req.selfieProvided = true)
    (hex : extractFaceDescriptors req.selfieExtract = some (q :: ds))
    (hnodup : (req.photos.map (·.id)).Nodup)
    (hdim : ∀ p ∈ req.photos, ∀ d ∈ p.faceData.getD [], d.length = q.length)
    (hhist : ∀ p ∈ matchedPhotos q req.photos, req.historyWriteFails p.id = false) :
    faceRecognitionHandler req =
      ({ status := 200, message := "Face recognition completed",
         totalPhotos := some req.photos.length,
         matchingPhotos := some (matchedPhotos q req.photos).length,
         photos := some (matchedPhotos q req.photos) },
       (matchedPhotos q req.photos).map (mkHistRecord req.userId req.eventId)) :=
  handler_completed_run req q ds hev hfile hex hnodup hdim hhist

/-- Concrete instantiation of C3: the selfie of `exRecogRequest` matches 2
of the 5 event photos, the response reports totalPhotos 5 and
matchingPhotos 2, and exactly 2 history records are inserted. -/
theorem C3_witness :
    (exRecogRequest.eventExists = true ∧ exRecogRequest.selfieProvided = true ∧
     extractFaceDescriptors exRecogRequest.selfieExtract = some [[0, 0]] ∧
     (exRecogRequest.photos.map (·.id)).Nodup ∧
     (∀ p ∈ exRecogRequest.photos, ∀ d ∈ p.faceData.getD [],
       d.length = (exQuery).length) ∧
     (∀ p ∈ matchedPhotos exQuery exRecogRequest.photos,
       exRecogRequest.historyWriteFails p.id = false)) ∧
    faceRecognitionHandler exRecogRequest =
      ({ status := 200, message := "Face recognition completed",
         totalPhotos := some exRecogRequest.photos.length,
         matchingPhotos := some (matchedPhotos exQuery exRecogRequest.photos).length,
         photos := some (matchedPhotos exQuery exRecogRequest.photos) },
       (matchedPhotos exQuery exRecogRequest.photos).map
         (mkHistRecord exRecogRequest.userId exRecogRequest.eventId)) :=
  ⟨⟨rfl, rfl, rfl, by decide, by decide, fun p _ => rfl⟩,
   C3_completed_response_and_history exRecogRequest exQuery []
     rfl rfl rfl (by decide) (by decide) (fun p _ => rfl)⟩

/-- C4 counterexample: on an image in which both detector passes find zero
faces, `extractFaceDescriptors` returns null, not an empty descriptor
list as the claim states. -/
theorem C4_counterexample :
    extractFaceDescriptors exZeroFaceEnv = none ∧
    extractFaceDescriptors exZeroFaceEnv ≠ some [] := by
  decide

/-- C4 amended: for every image in which zero faces are detected,
`extractFaceDescriptors` returns null — not an empty list — and does not
throw; the null is the valid zero-face outcome the callers test for. -/
theorem C4_zero_faces_returns_null (env : ExtractEnv)
    (htiny : env.tinyDetections = .ok []) (hssd : env.ssdDetections = .ok []) :
    extractFaceDescriptors env = none := by
  cases hinit : env.initFaceApi with
  | error msg => simp [extractFaceDescriptors, hinit]
  | ok u =>
    cases hdec : env.bufferToImage with
    | error msg => simp [extractFaceDescriptors, hinit, hdec]
    | ok v => simp [extractFaceDescriptors, hinit, hdec, htiny, hssd]

/-- Concrete instantiation of the amended C4. -/
theorem C4_witness :
    (exZeroFaceEnv.tinyDetections = .ok [] ∧ exZeroFaceEnv.ssdDetections = .ok []) ∧
    extractFaceDescriptors exZeroFaceEnv = none :=
  ⟨⟨rfl, rfl⟩, C4_zero_faces_returns_null exZeroFaceEnv rfl rfl⟩

/-- C5: when descriptor extraction fails or finds no face during a photo
upload, the photo record is still created, its stored descriptor list is
null, and the route answers 201. -/
theorem C5_upload_null_faceData_201 (req : UploadRequest)
    (hev : req.eventExists = true) (hfile : req.fileProvided = true)
    (hfail : req.readFileOk = false ∨ extractFaceDescriptors req.extractEnv = none) :
    uploadPhotoHandler req = { status := 201, createdFaceData := some none } := by
  rcases hfail with h | h <;> simp [uploadPhotoHandler, hev, hfile, h]

/-- Concrete instantiation of C5: uploading a zero-face photo stores a null
descriptor list and still succeeds. -/
theorem C5_witness :
    (exUploadRequest.eventExists = true ∧ exUploadRequest.fileProvided = true ∧
     extractFaceDescriptors exUploadRequest.extractEnv = none) ∧
    uploadPhotoHandler exUploadRequest = { status := 201, createdFaceData := some none } :=
  ⟨⟨rfl, rfl, rfl⟩, C5_upload_null_faceData_201 exUploadRequest rfl rfl (Or.inr rfl)⟩

/-- C6: a selfie from which zero descriptors are extracted terminates the
request with the 400 no-face-detected error, and zero history records are
inserted. -/
theorem C6_no_face_selfie_400 (req : RecogRequest)
    (hev : req.eventExists = true) (hfile : req.selfieProvided = true)
    (hex : extractFaceDescriptors req.selfieExtract = none ∨
           extractFaceDescriptors req.selfieExtract = some []) :
    faceRecognitionHandler req =
      ({ status := 400, message := "No face detected in the selfie",
         totalPhotos := none, matchingPhotos := none, photos := none }, []) := by
  rcases hex with h | h <;> simp [faceRecognitionHandler, hev, hfile, h]

/-- Concrete instantiation of C6. -/
theorem C6_witness :
    (exNoFaceRequest.eventExists = true ∧ exNoFaceRequest.selfieProvided = true ∧
     extractFaceDescriptors exNoFaceRequest.selfieExtract = none) ∧
    faceRecognitionHandler exNoFaceRequest =
      ({ status := 400, message := "No face detected in the selfie",
         totalPhotos := none, matchingPhotos := none, photos := none }, []) :=
  ⟨⟨rfl, rfl, rfl⟩, C6_no_face_selfie_400 exNoFaceRequest rfl rfl (Or.inl rfl)⟩

/-- C7 counterexample: in `exRecogRequestHistFail` the insert for the first
matched photo throws; the remaining insert is skipped (no record at all
is stored) and the route answers 500 instead of returning the computed
match result. -/
theorem C7_counterexample :
    faceRecognitionHandler exRecogRequestHistFail =
      ({ status := 500, message := "Face recognition failed",
         totalPhotos := none, matchingPhotos := none, photos := none }, []) := by
  have hmp : matchedPhotos exQuery exRecogRequestHistFail.photos =
      [{ id := 1, eventId := 42, url := "/uploads/a.jpg", faceData := some [[0, 0]] },
       { id := 4, eventId := 42, url := "/uploads/d.jpg",
         faceData := some [[0, 1/100]] }] := exMatchedPhotos_eq
  have hfail : ∃ p ∈ matchedPhotos exQuery exRecogRequestHistFail.photos,
      exRecogRequestHistFail.historyWriteFails p.id = true := by
    rw [hmp]
    exact ⟨_, List.mem_cons_self _ _, rfl⟩
  have h := handler_history_fail_run exRecogRequestHistFail exQuery []
    rfl rfl rfl (by decide) (by decide) hfail
  rw [h, hmp]
  rfl

/-- C7 amended: history recording is sequential and fail-fast, not
best-effort: when the insert for some matched photo throws, the inserts
after it are skipped — only the records before the first failure are
kept — and the request fails with the 500 response, so the caller does
not receive the computed match result. -/
theorem C7_amended_history_failure_aborts (req : RecogRequest) (q : List ℚ)
    (ds : List (List ℚ))
    (hev : req.eventExists = true) (hfile : req.selfieProvided = true)
    (hex : extractFaceDescriptors req.selfieExtract = some (q :: ds))
    (hnodup : (req.photos.map (·.id)).Nodup)
    (hdim : ∀ p ∈ req.photos, ∀ d ∈ p.faceData.getD [], d.length = q.length)
    (hfail : ∃ p ∈ matchedPhotos q req.photos, req.historyWriteFails p.id = true) :
    faceRecognitionHandler req =
      ({ status := 500, message := "Face recognition failed",
         totalPhotos := none, matchingPhotos := none, photos := none },
       ((matchedPhotos q req.photos).takeWhile fun p =>
         !req.historyWriteFails p.id).map (mkHistRecord req.userId req.eventId)) :=
  handler_history_fail_run req q ds hev hfile hex hnodup hdim hfail

/-- Concrete instantiation of the amended C7: the failing insert for photo
1 leaves zero records and a 500 response. -/
theorem C7_witness :
    (∃ p ∈ matchedPhotos exQuery exRecogRequestHistFail.photos,
      exRecogRequestHistFail.historyWriteFails p.id = true) ∧
    faceRecognitionHandler exRecogRequestHistFail =
      ({ status := 500, message := "Face recognition failed",
         totalPhotos := none, matchingPhotos := none, photos := none },
       ((matchedPhotos exQuery exRecogRequestHistFail.photos).takeWhile fun p =>
         !exRecogRequestHistFail.historyWriteFails p.id).map
         (mkHistRecord exRecogRequestHistFail.userId exRecogRequestHistFail.eventId)) := by
  have hfail : ∃ p ∈ matchedPhotos exQuery exRecogRequestHistFail.photos,
      exRecogRequestHistFail.historyWriteFails p.id = true := by
    rw [show matchedPhotos exQuery exRecogRequestHistFail.photos =
        matchedPhotos exQuery exPhotos from rfl, exMatchedPhotos_eq]
    exact ⟨_, List.mem_cons_self _ _, rfl⟩
  exact ⟨hfail,
    C7_amended_history_failure_aborts exRecogRequestHistFail exQuery []
      rfl rfl rfl (by decide) (by decide) hfail⟩

/-- C10: descriptor extraction never throws to its caller — a model load
failure, a decode failure, a detector failure, all collapse to the same
null result — so a selfie whose extraction failed for any reason gets the
same 400 no-face response as a genuine zero-face selfie, and a failed
upload extraction stores a null descriptor list; the distinct error
conditions are not distinguishable at the public interface. -/
theorem C10_extraction_failures_uniform :
    (∀ env : ExtractEnv, ∀ msg, env.initFaceApi = .error msg →
        extractFaceDescriptors env = none) ∧
    (∀ env : ExtractEnv, ∀ msg, env.bufferToImage = .error msg →
        extractFaceDescriptors env = none) ∧
    (∀ env : ExtractEnv, ∀ msg, env.tinyDetections = .error msg →
        extractFaceDescriptors env = none) ∧
    (∀ env : ExtractEnv, ∀ msg, env.tinyDetections = .ok [] →
        env.ssdDetections = .error msg → extractFaceDescriptors env = none) ∧
    (∀ req : RecogRequest, req.eventExists = true → req.selfieProvided = true →
        extractFaceDescriptors req.selfieExtract = none →
        faceRecognitionHandler req =
          ({ status := 400, message := "No face detected in the selfie",
             totalPhotos := none, matchingPhotos := none, photos := none }, [])) ∧
    (∀ up : UploadRequest, up.eventExists = true → up.fileProvided = true →
        extractFaceDescriptors up.extractEnv = none →
        uploadPhotoHandler up = { status := 201, createdFaceData := some none }) := by
  refine ⟨?_, ?_, ?_, ?_, ?_, ?_⟩
  · intro env msg h
    simp [extractFaceDescriptors, h]
  · intro env msg h
    cases hinit : env.initFaceApi with
    | error m => simp [extractFaceDescriptors, hinit]
    | ok u => simp [extractFaceDescriptors, hinit, h]
  · intro env msg h
    cases hinit : env.initFaceApi with
    | error m => simp [extractFaceDescriptors, hinit]
    | ok u =>
      cases hdec : env.bufferToImage with
      | error m => simp [extractFaceDescriptors, hinit, hdec]
      | ok v => simp [extractFaceDescriptors, hinit, hdec, h]
  · intro env msg htiny hssd
    cases hinit : env.initFaceApi with
    | error m => simp [extractFaceDescriptors, hinit]
    | ok u =>
      cases hdec : env.bufferToImage with
      | error m => simp [extractFaceDescriptors, hinit, hdec]
      | ok v => simp [extractFaceDescriptors, hinit, hdec, htiny, hssd]
  · intro req hev hfile hex
    simp [faceRecognitionHandler, hev, hfile, hex]
  · intro up hev hfile hex
    simp [uploadPhotoHandler, hev, hfile, hex]

/-- Concrete instantiation of C10: model-load failure and decode failure
both yield null, and the public responses coincide with the zero-face
ones. -/
theorem C10_witness :
    extractFaceDescriptors exInitFailEnv = none ∧
    extractFaceDescriptors exDecodeFailEnv = none ∧
    faceRecognitionHandler exInitFailRequest =
      ({ status := 400, message := "No face detected in the selfie",
         totalPhotos := none, matchingPhotos := none, photos := none }, []) ∧
    uploadPhotoHandler exInitFailUpload = { status := 201, createdFaceData := some none } :=
  ⟨C10_extraction_failures_uniform.1 exInitFailEnv _ rfl,
   C10_extraction_failures_uniform.2.1 exDecodeFailEnv _ rfl,
   C10_extraction_failures_uniform.2.2.2.2.1 exInitFailRequest rfl rfl rfl,
   C10_extraction_failures_uniform.2.2.2.2.2 exInitFailUpload rfl rfl rfl⟩

/-- C8 (code bug): the upload route serializes the `Float32Array`
descriptors with a plain `JSON.stringify`, which renders each typed array
as an index-keyed object instead of an array.  At the concrete descriptor
list with one two-float descriptor, the stored value differs from the
array-of-float-arrays shape the spec requires the round trip to preserve,
and the parsed element has no length property, so the match-engine
distance computation throws on it at recognition time. -/
theorem C8_faceData_serialization_shape_bug :
    uploadFaceDataJson [[1/2, 1/2]] =
      .arr [.obj [("0", .num (1/2)), ("1", .num (1/2))]] ∧
    uploadFaceDataJson [[1/2, 1/2]] ≠ specFaceDataJson [[1/2, 1/2]] ∧
    euclideanDistanceGuard 2 (jsonStringifyFloat32Array [1/2, 1/2]) =
      .error "euclideanDistance: arr.length must be equal" := by
  refine ⟨rfl, ?_, rfl⟩
  intro h
  rw [uploadFaceDataJson, specFaceDataJson] at h
  simp [jsonStringifyFloat32Array] at h

/-- C9 (code bug evidence): from the fresh module state, a first caller of
`initFaceApi` starts a load; a second caller that enters before the first
load completes also starts a load, leaving two load sequences started —
the bare `modelsLoaded` boolean is not a single-flight guard.  After a
completed load, a further caller starts none. -/
theorem C9_concurrent_init_double_load :
    (initFaceApiEnter ⟨false, 0⟩).2 = true ∧
    (initFaceApiEnter (initFaceApiEnter ⟨false, 0⟩).1).2 = true ∧
    (initFaceApiEnter (initFaceApiEnter ⟨false, 0⟩).1).1.loadsStarted = 2 ∧
    (initFaceApiEnter (initFaceApiComplete
      (initFaceApiEnter ⟨false, 0⟩).1)).2 = false := by
  decide

end FaceSnapr
